import Mathlib

/-!
Shallow embedding of the Gradiora document-extraction engine
(`server/services/python/processor.py` and
`server/services/python/document_processor.py`).

External collaborators (the antiword subprocess, the mammoth converter
library, PyPDF2, python-docx, PIL and pytesseract) are modelled as oracle
fields of an environment record: `Except String α` stands for a Python call
that either raises (with the exception's message) or returns a value, and
`Option String` stands for a call whose failure is swallowed by a bare
`except`.  Python's truthiness test `if text.strip():` is modelled by
`¬ isBlank text`; where the code keeps the stripped value we use `pyTrim`.
Lean's whitespace predicate covers ' ', '\t', '\r', '\n', which is the
portion of Python's strip set exercised by the code.
-/

deriving instance DecidableEq for Except

namespace Gradiora

/-- Model of the JSON-serializable Python values the processor builds. -/
inductive PyVal where
  | pstr : String → PyVal
  | pint : Int → PyVal
  | pnum : ℚ → PyVal
  | pnone : PyVal
  | plist : List PyVal → PyVal
  | pdict : List (String × PyVal) → PyVal

/-- `{"error": msg}` — the error dictionary every handler returns on failure. -/
def errD (msg : String) : PyVal := .pdict [("error", .pstr msg)]

/-- Python's `not s.strip()`: true iff every character is whitespace. -/
def isBlank (s : String) : Bool := s.data.all Char.isWhitespace

/-- Python's `s.lower()`, modelled character-wise. -/
def pyLower (s : String) : String := ⟨s.data.map Char.toLower⟩

/-- Python's `s.strip()`: drop leading and trailing whitespace. -/
def pyTrim (s : String) : String :=
  ⟨((s.data.dropWhile Char.isWhitespace).reverse.dropWhile Char.isWhitespace).reverse⟩

/-- `pat in s` for strings: some suffix of `s` starts with `pat`. -/
def containsStr (s pat : String) : Bool :=
  (List.range (s.data.length + 1)).any (fun i => pat.data.isPrefixOf (s.data.drop i))

/-- Key lookup in a `pdict` (Python `d.get(k)` on the dicts the code builds). -/
def lookupKey (v : PyVal) (k : String) : Option PyVal :=
  match v with
  | .pdict fs => (fs.find? (fun p => p.1 == k)).map Prod.snd
  | _ => none

/-- Whether a dict result carries key `k`. -/
def hasKey (v : PyVal) (k : String) : Bool := (lookupKey v k).isSome

/-- A result is well formed when it is an error (only an `error` field) or a
success (a `type` and a `content` field, no `error`), never both. -/
def wellFormed (v : PyVal) : Bool :=
  (hasKey v "error" && !hasKey v "type" && !hasKey v "content")
    || (!hasKey v "error" && hasKey v "type" && hasKey v "content")

/-- Outcome of `open(file_path, 'r', encoding='utf-8').read()`:
success, a `UnicodeDecodeError` (whose message processor.py ignores but
document_processor.py embeds via `str(e)`), or another exception. -/
inductive UtfRead where
  | ok : String → UtfRead
  | unicodeError : String → UtfRead
  | otherExc : String → UtfRead
deriving DecidableEq

/-- Oracle outcomes for one `.doc` file as seen by `DocumentProcessor.process_doc`.
The code consults only `exists_`, `antiword`, `openDoc`, `convert_to_markdown`
and `extract_raw_text`; the remaining fields model the further strategies the
specification describes (styled raw-text retry, HTML conversion, raw-byte
decodes) so that the spec's chain can be stated over the same environment. -/
structure DocEnv where
  exists_ : Bool
  antiword : Except String String
  openDoc : Except String Unit
  convert_to_markdown : Except String String
  extract_raw_text : Except String String
  extract_raw_text_styled : Except String String
  convert_to_html : Except String String
  bytesUtf8 : Option String
  bytesLatin1 : Option String
  bytesCp1252 : Option String
deriving DecidableEq

/-- `DocumentProcessor.process_doc_antiword`: run the antiword subprocess;
any exception yields `None`; a successful run returns the (untrimmed) stdout
when it is non-blank, else `None`. -/
def process_doc_antiword (e : DocEnv) : Option String :=
  match e.antiword with
  | .error _ => none
  | .ok out => if isBlank out then none else some out

/-- One mammoth attempt in the `process_doc` loop: an exception is caught
(`continue`), and the stripped value is kept only when non-empty. -/
def mammothTry (r : Except String String) : Option String :=
  match r with
  | .error _ => none
  | .ok v => if pyTrim v = "" then none else some (pyTrim v)

/-- A `{"type": "doc", "content": {"text": ..., "method": ...}}` success. -/
def docSuccess (text method : String) : PyVal :=
  .pdict [("type", .pstr "doc"),
    ("content", .pdict [("text", .pstr text), ("method", .pstr method)])]

/-- `DocumentProcessor.process_doc`: antiword first, then the
`[('markdown', ...), ('raw_text', ...)]` loop over the opened file, then the
terminal error.  A failure to open the file is caught by the outer handler. -/
def process_doc (e : DocEnv) : PyVal :=
  if e.exists_ = false then errD "File not found"
  else
    match process_doc_antiword e with
    | some text => docSuccess text "antiword"
    | none =>
      match e.openDoc with
      | .error m => errD ("DOC processing failed: " ++ m)
      | .ok _ =>
        match mammothTry e.convert_to_markdown with
        | some t => docSuccess t "markdown"
        | none =>
          match mammothTry e.extract_raw_text with
          | some t => docSuccess t "raw_text"
          | none => errD "Failed to extract text using any available method"

/-- One decode attempt of the spec's raw-byte fallback (strategy 5). -/
def decodeTry (dec : Option String) : Option String :=
  match dec with
  | none => none
  | some t => if isBlank t then none else some t

/-- Modelled from the spec: the five-strategy DOC fallback chain of §4.2 —
(1) antiword, (2) markdown conversion, (3) raw-text extraction with a styled
secondary attempt when blank, (4) HTML conversion, (5) raw-byte decode with
utf-8, latin-1, cp1252 — stopping at the first strategy yielding usable text
and otherwise returning an `AllMethodsExhausted` error naming every attempted
method.  This definition exists only to be compared with `process_doc`. -/
def specDocChain (e : DocEnv) : PyVal :=
  if e.exists_ = false then errD "File not found"
  else
    match process_doc_antiword e with
    | some text => docSuccess text "antiword"
    | none =>
      match mammothTry e.convert_to_markdown with
      | some t => docSuccess t "markdown"
      | none =>
        match mammothTry e.extract_raw_text with
        | some t => docSuccess t "raw_text"
        | none =>
          match mammothTry e.extract_raw_text_styled with
          | some t => docSuccess t "raw_text"
          | none =>
            match mammothTry e.convert_to_html with
            | some t => docSuccess t "html"
            | none =>
              match decodeTry e.bytesUtf8 with
              | some t => docSuccess t "utf-8"
              | none =>
                match decodeTry e.bytesLatin1 with
                | some t => docSuccess t "latin-1"
                | none =>
                  match decodeTry e.bytesCp1252 with
                  | some t => docSuccess t "cp1252"
                  | none => errD
                      "AllMethodsExhausted: antiword, markdown, raw_text, html, utf-8, latin-1, cp1252"

/-- `DocumentProcessor.process_docx` over the paragraph texts delivered by
python-docx (or the exception it raised). -/
def process_docx (r : Except String (List String)) : PyVal :=
  match r with
  | .error m => errD ("DOCX processing failed: " ++ m)
  | .ok paras =>
    let text := String.intercalate "\n" paras
    if isBlank text then errD "No text content found in DOCX"
    else .pdict [("type", .pstr "docx"), ("content", .pdict [("text", .pstr text)])]

/-- `DocumentProcessor.process_pdf` over the per-page texts delivered by
PyPDF2 in page order (or the exception raised while opening/reading): keep,
in order, exactly the pages whose text is non-blank. -/
def process_pdf (r : Except String (List String)) : PyVal :=
  match r with
  | .error m => errD ("PDF processing failed: " ++ m)
  | .ok texts =>
    let pages := texts.filter (fun t => !isBlank t)
    if pages.isEmpty then errD "No text content found in PDF"
    else .pdict [("type", .pstr "pdf"),
      ("content", .pdict [("pages", .plist (pages.map .pstr))])]

/-- Decode oracles for one text file: the utf-8 read, then the `latin-1` and
`cp1252` retries (`none` = the bare `except` swallowed an exception). -/
structure TextEnv where
  utf8 : UtfRead
  latin1 : Option String
  cp1252 : Option String
deriving DecidableEq

/-- A `{"type": "text", "content": {"text": ...}}` success. -/
def textSuccess (text : String) : PyVal :=
  .pdict [("type", .pstr "text"), ("content", .pdict [("text", .pstr text)])]

/-- One iteration of the encoding-retry loop in `process_text`: an exception
is swallowed and a blank decode falls through to the next encoding. -/
def retryTry (dec : Option String) : Option String :=
  match dec with
  | none => none
  | some t => if isBlank t then none else some t

/-- `DocumentProcessor.process_text`: utf-8 first; a blank utf-8 read is the
`Empty text file` error; only a `UnicodeDecodeError` enters the latin-1 /
cp1252 retry loop; any other exception is the generic handler error. -/
def process_text (e : TextEnv) : PyVal :=
  match e.utf8 with
  | .ok text =>
    if isBlank text then errD "Empty text file" else textSuccess text
  | .unicodeError _ =>
    match retryTry e.latin1 with
    | some t => textSuccess t
    | none =>
      match retryTry e.cp1252 with
      | some t => textSuccess t
      | none => errD "Failed to decode text file with supported encodings"
  | .otherExc m => errD ("Text file processing failed: " ++ m)

/-- What `Image.open` yields when it succeeds. -/
structure ImgData where
  width : Int
  height : Int
  mode : String
  format : Option String
deriving DecidableEq

/-- Oracles for one image: the `Image.open` outcome, the OCR pass, and the
preview re-encode.  `ocr` is `ok (toks, fullText)` when both pytesseract
calls succeed — `toks` is `zip(ocr_data['conf'], ocr_data['text'])` and
`fullText` the `image_to_string` result — and `error` when either call
raises.  `save` is the outcome of `img.save(img_buffer, format=format_name)`:
it raises, for instance, whenever the image was mode-converted, because the
converted image's `format` attribute is `None`, so `format_name` becomes
`'unknown'`, a format PIL cannot write; the exception reaches the handler's
outer `except` and turns the result into an error.  The `img.convert` call
itself is assumed not to raise; its effect on the `format` attribute is
modelled by `effectiveFormat`. -/
structure ImageEnv where
  openImg : Except String ImgData
  ocr : Except String (List (Int × String) × String)
  save : Except String Unit
deriving DecidableEq

/-- The `format` attribute of the image the handler works with after the
mode check: an image whose mode is neither `'L'` nor `'RGB'` is replaced by
`img.convert('RGB')`, whose `format` attribute is `None`. -/
def effectiveFormat (img : ImgData) : Option String :=
  if img.mode = "L" ∨ img.mode = "RGB" then img.format else none

/-- The list comprehension
`[conf for conf, text in zip(...) if str(text).strip() and conf != -1]`. -/
def ocrConfidences (toks : List (Int × String)) : List Int :=
  (toks.filter (fun p => !isBlank p.2 && p.1 != -1)).map Prod.fst

/-- `sum(confidences) / len(confidences) if confidences else 0`. -/
def avgConfidence (toks : List (Int × String)) : ℚ :=
  let cs := ocrConfidences toks
  if cs.isEmpty then 0 else (cs.sum : ℚ) / cs.length

/-- Python's `round(x, 2)` modelled over ℚ (ties, which the code never hits
exactly, round via Mathlib's `round`). -/
def round2 (q : ℚ) : ℚ := (round (q * 100) : ℚ) / 100

/-- `DocumentProcessor.process_image`: an OCR exception is downgraded to
`text = ""`, `avg_confidence = 0`; `format_name` is the (conversion-aware)
format attribute or `'unknown'`; the `img.save(img_buffer, format=format_name)`
re-encode runs after the OCR block and an exception there reaches the outer
handler, overriding any OCR outcome with an error result; on success,
`extracted_text` is `None` when `text` is the empty string and the stripped
text otherwise. -/
def process_image (e : ImageEnv) : PyVal :=
  match e.openImg with
  | .error m => errD ("Image processing failed: " ++ m)
  | .ok img =>
    let pair := match e.ocr with
      | .ok (toks, t) => (t, avgConfidence toks)
      | .error _ => ("", 0)
    match e.save with
    | .error m => errD ("Image processing failed: " ++ m)
    | .ok _ =>
      .pdict [("type", .pstr "image"),
        ("content", .pdict [
          ("format", .pstr ((effectiveFormat img).getD "unknown")),
          ("width", .pint img.width),
          ("height", .pint img.height),
          ("extracted_text", if pair.1 = "" then PyVal.pnone else .pstr (pyTrim pair.1)),
          ("ocr_confidence", .pnum (round2 pair.2))])]

/-- The whole environment `process_document` runs in: the file's existence,
its raw extension as returned by `os.path.splitext` (case preserved), the
per-format oracles, and an ambient clock / randomness source that the code
never consults (present to state determinism). -/
structure Env where
  fileExists : Bool
  ext : String
  doc : DocEnv
  docx : Except String (List String)
  pdf : Except String (List String)
  text : TextEnv
  image : ImageEnv
  time : Nat
  rand : Nat
deriving DecidableEq

/-- `process_document`: existence check, lower-cased extension dispatch,
unsupported-format error built from the lower-cased extension. -/
def process_document (env : Env) : PyVal :=
  if env.fileExists = false then errD "File not found"
  else
    let ext := pyLower env.ext
    if ext = ".doc" then process_doc env.doc
    else if ext = ".docx" then process_docx env.docx
    else if ext = ".pdf" then process_pdf env.pdf
    else if ext = ".txt" ∨ ext = ".md" then process_text env.text
    else if ext = ".jpg" ∨ ext = ".jpeg" ∨ ext = ".png" ∨ ext = ".webp" then
      process_image env.image
    else errD ("Unsupported file format: " ++ ext)

/-- The extensions `process_document` dispatches on. -/
def supportedExt (ext : String) : Prop :=
  ext ∈ [".doc", ".docx", ".pdf", ".txt", ".md", ".jpg", ".jpeg", ".png", ".webp"]

instance (ext : String) : Decidable (supportedExt ext) := by
  unfold supportedExt
  infer_instance

end Gradiora

namespace Gradiora.DocProc

/-!
Embedding of the duplicate implementation
`server/services/python/document_processor.py`.  Its per-format helpers catch
their own exceptions and return the error message as an ordinary string. -/

/-- Oracles for one `extract_text` call: file existence, raw extension, the
python-docx paragraph texts, the PyPDF2 page texts, the mammoth calls on the
DOC path (`docOpen` is the `open(doc_path, 'rb')` itself), and the utf-8 read
for `.txt`/`.md`. -/
structure DPEnv where
  fileExists : Bool
  ext : String
  docxParas : Except String (List String)
  pdfPages : Except String (List String)
  docOpen : Except String Unit
  docMarkdown : Except String String
  docRaw : Except String String
  txtRead : Gradiora.UtfRead
deriving DecidableEq

/-- `extract_text_from_docx`: concatenate `paragraph.text + '\n'` for every
paragraph; an exception becomes the message string, returned on the value
channel. -/
def extract_text_from_docx (e : DPEnv) : String :=
  match e.docxParas with
  | .ok paras => String.join (paras.map (fun p => p ++ "\n"))
  | .error m => "Error extracting text from DOCX: " ++ m

/-- `extract_text_from_pdf`: concatenate `page.extract_text()` over all
pages; an exception becomes the message string. -/
def extract_text_from_pdf (e : DPEnv) : String :=
  match e.pdfPages with
  | .ok pages => String.join pages
  | .error m => "Error extracting text from PDF: " ++ m

/-- `extract_text_from_doc`: markdown conversion, raw-text retry when the
markdown text is blank, and a raised-then-caught
`No text content could be extracted` when both are blank; every exception is
converted to the message string. -/
def extract_text_from_doc (e : DPEnv) : String :=
  match e.docOpen with
  | .error m => "Error extracting text from DOC: " ++ m
  | .ok _ =>
    match e.docMarkdown with
    | .error m => "Error extracting text from DOC: " ++ m
    | .ok md =>
      if isBlank md = false then md
      else
        match e.docRaw with
        | .error m => "Error extracting text from DOC: " ++ m
        | .ok raw =>
          if isBlank raw = false then raw
          else "Error extracting text from DOC: No text content could be extracted"

/-- The final wrap in `extract_text`: a falsy-or-blank text is the
`No text content extracted` error, anything else is `{"text": text}`. -/
def wrapText (text : String) : PyVal :=
  if isBlank text then errD "No text content extracted"
  else .pdict [("text", .pstr text)]

/-- `document_processor.extract_text` (the object passed to `json.dumps`). -/
def extract_text (e : DPEnv) : PyVal :=
  if e.fileExists = false then errD "File not found"
  else
    let ext := pyLower e.ext
    if ext = ".pdf" then wrapText (extract_text_from_pdf e)
    else if ext = ".docx" then wrapText (extract_text_from_docx e)
    else if ext = ".doc" then wrapText (extract_text_from_doc e)
    else if ext = ".txt" ∨ ext = ".md" then
      match e.txtRead with
      | .ok t => wrapText t
      | .unicodeError m => errD ("Extraction failed: " ++ m)
      | .otherExc m => errD ("Extraction failed: " ++ m)
    else errD ("Unsupported file format: " ++ ext)

end Gradiora.DocProc

namespace Gradiora

/-! ### Shared well-formedness lemmas -/

lemma wf_process_doc (e : DocEnv) : wellFormed (process_doc e) = true := by
  unfold process_doc
  repeat' split
  all_goals rfl

lemma wf_process_docx (r : Except String (List String)) :
    wellFormed (process_docx r) = true := by
  simp only [process_docx]
  repeat' split
  all_goals rfl

lemma wf_process_pdf (r : Except String (List String)) :
    wellFormed (process_pdf r) = true := by
  simp only [process_pdf]
  repeat' split
  all_goals rfl

lemma wf_process_text (e : TextEnv) : wellFormed (process_text e) = true := by
  unfold process_text
  repeat' split
  all_goals rfl

lemma wf_process_image (e : ImageEnv) : wellFormed (process_image e) = true := by
  unfold process_image
  repeat' split
  all_goals rfl

lemma wf_process_document (env : Env) : wellFormed (process_document env) = true := by
  simp only [process_document]
  split
  · rfl
  · split
    · exact wf_process_doc env.doc
    · split
      · exact wf_process_docx env.docx
      · split
        · exact wf_process_pdf env.pdf
        · split
          · exact wf_process_text env.text
          · split
            · exact wf_process_image env.image
            · rfl

/-! ### Claim theorems -/

/-- C3: every value returned by the top-level `process_document`, for every
input, is either an error result (an `error` field and no content payload) or
a success result (a `type` tag and a `content` payload, with no `error`
field) — never both at once. -/
theorem c3_result_is_error_xor_success (env : Env) :
    (hasKey (process_document env) "error" = true
        ∧ hasKey (process_document env) "type" = false
        ∧ hasKey (process_document env) "content" = false)
    ∨ (hasKey (process_document env) "error" = false
        ∧ hasKey (process_document env) "type" = true
        ∧ hasKey (process_document env) "content" = true) := by
  have h := wf_process_document env
  unfold wellFormed at h
  rcases Bool.or_eq_true_iff.mp h with h' | h'
  · left
    simp only [Bool.and_eq_true, Bool.not_eq_true'] at h'
    exact ⟨h'.1.1, h'.1.2, h'.2⟩
  · right
    simp only [Bool.and_eq_true, Bool.not_eq_true'] at h'
    exact ⟨h'.1.1, h'.1.2, h'.2⟩

/-- C9: `process_document` is deterministic — its result is a function of the
file's existence, path extension, contents and the collaborator responses
alone, unchanged under any ambient clock or randomness value — and no
exception escapes it: for every environment it returns a well-formed
`{"error": ...}` or `{"type": ..., "content": ...}` object. -/
theorem c9_deterministic_and_exceptionless (env : Env) (t₁ r₁ t₂ r₂ : Nat) :
    process_document { env with time := t₁, rand := r₁ }
        = process_document { env with time := t₂, rand := r₂ }
    ∧ wellFormed (process_document env) = true :=
  ⟨rfl, wf_process_document env⟩

/-- A `.doc` environment in which antiword raises, the markdown and raw-text
conversions yield blank output, but an HTML conversion would yield usable text
and the raw bytes decode under cp1252. -/
def docEnvHtmlOnly : DocEnv :=
  ⟨true, .error "antiword: command not found", .ok (), .ok "", .ok " ", .ok "",
    .ok "<p>Recovered</p>", none, none, some "raw fallback"⟩

/-- C1 counterexample: on a file where the spec's strategy 4 (HTML
conversion) would yield usable text, `process_doc` returns the terminal
error instead of the HTML result — the handler does not attempt the five
strategies the claim lists, so it disagrees with the spec-modelled chain. -/
theorem c1_doc_chain_counterexample :
    process_doc docEnvHtmlOnly = errD "Failed to extract text using any available method"
    ∧ specDocChain docEnvHtmlOnly = docSuccess "<p>Recovered</p>" "html"
    ∧ process_doc docEnvHtmlOnly ≠ specDocChain docEnvHtmlOnly := by
  refine ⟨rfl, rfl, ?_⟩
  intro h
  rw [show process_doc docEnvHtmlOnly
        = errD "Failed to extract text using any available method" from rfl,
    show specDocChain docEnvHtmlOnly = docSuccess "<p>Recovered</p>" "html" from rfl] at h
  simp [errD, docSuccess] at h

/-- C1 amended: for every `.doc` file the handler attempts exactly three
strategies in the fixed order antiword (untrimmed stdout), markdown
conversion (trimmed), raw-text conversion (trimmed), stopping at the first
that yields usable text; it returns the terminal error when all three yield
blank or raise, and the spec's further strategies (styled raw-text retry,
HTML conversion, raw-byte decode) are never attempted — the result is
unchanged under any outcome of those oracles. -/
theorem c1_doc_chain_is_three_strategies (e : DocEnv) (hex : e.exists_ = true)
    (hopen : e.openDoc = .ok ()) :
    (∀ out, e.antiword = .ok out → isBlank out = false →
        process_doc e = docSuccess out "antiword")
    ∧ (process_doc_antiword e = none → ∀ v, e.convert_to_markdown = .ok v →
        pyTrim v ≠ "" → process_doc e = docSuccess (pyTrim v) "markdown")
    ∧ (process_doc_antiword e = none → mammothTry e.convert_to_markdown = none →
        ∀ v, e.extract_raw_text = .ok v → pyTrim v ≠ "" →
        process_doc e = docSuccess (pyTrim v) "raw_text")
    ∧ (process_doc_antiword e = none → mammothTry e.convert_to_markdown = none →
        mammothTry e.extract_raw_text = none →
        process_doc e = errD "Failed to extract text using any available method")
    ∧ (∀ s h b₁ b₂ b₃, process_doc
        { e with
          extract_raw_text_styled := s, convert_to_html := h,
          bytesUtf8 := b₁, bytesLatin1 := b₂, bytesCp1252 := b₃ } = process_doc e) := by
  refine ⟨?_, ?_, ?_, ?_, ?_⟩
  · intro out ha hb
    unfold process_doc process_doc_antiword
    simp [hex, ha, hb]
  · intro hn v hv ht
    unfold process_doc
    simp [hex, hn, hopen, mammothTry, hv, ht]
  · intro hn hm v hv ht
    unfold process_doc
    simp only [hex, hn, hopen, hm]
    simp [mammothTry, hv, ht]
  · intro hn hm hr
    unfold process_doc
    simp [hex, hn, hopen, hm, hr]
  · intro s h b₁ b₂ b₃
    rfl

/-- C1 witness: the amended chain theorem applied at a concrete environment
where all three attempted strategies fail. -/
theorem c1_doc_chain_witness :
    process_doc docEnvHtmlOnly = errD "Failed to extract text using any available method" :=
  (c1_doc_chain_is_three_strategies docEnvHtmlOnly rfl rfl).2.2.2.1 rfl rfl rfl

/-- C5 amended: for every existing file with an unsupported extension,
`process_document` returns the unsupported-format error with the extension
echoed lower-cased (not verbatim): the extension is lower-cased before both
dispatch and message construction. -/
theorem c5_unsupported_ext_lowercased (env : Env)
    (h1 : env.fileExists = true) (h2 : ¬ supportedExt (pyLower env.ext)) :
    process_document env = errD ("Unsupported file format: " ++ pyLower env.ext) := by
  simp only [supportedExt, List.mem_cons, List.not_mem_nil, or_false, not_or] at h2
  obtain ⟨hd, hdx, hp, ht, hm, hj, hje, hpn, hw⟩ := h2
  simp [process_document, h1, hd, hdx, hp, ht, hm, hj, hje, hpn, hw]

/-- A benign `.doc` environment for concrete top-level runs. -/
def benignDoc : DocEnv :=
  ⟨true, .ok "antiword text", .ok (), .ok "md", .ok "raw", .ok "", .ok "", none, none, none⟩

/-- A benign text-file environment for concrete top-level runs. -/
def benignText : TextEnv := ⟨.ok "hello", none, none⟩

/-- A benign image environment for concrete top-level runs. -/
def benignImage : ImageEnv :=
  ⟨.ok ⟨10, 8, "RGB", some "PNG"⟩, .ok ([(90, "hi")], "hi"), .ok ()⟩

/-- An existing file named with the upper-case unsupported extension `.XYZ`. -/
def envXYZ : Env :=
  ⟨true, ".XYZ", benignDoc, .ok ["para"], .ok ["page"], benignText, benignImage, 0, 0⟩

/-- C5 counterexample: for the extension `.XYZ` the error message echoes
`.xyz`, not the original `.XYZ` with its case unchanged. -/
theorem c5_unsupported_ext_counterexample :
    process_document envXYZ = errD "Unsupported file format: .xyz"
    ∧ process_document envXYZ ≠ errD "Unsupported file format: .XYZ" := by
  refine ⟨rfl, ?_⟩
  intro h
  rw [show process_document envXYZ = errD "Unsupported file format: .xyz" from rfl] at h
  simp only [errD, PyVal.pdict.injEq, List.cons.injEq, Prod.mk.injEq, PyVal.pstr.injEq,
    and_true, true_and] at h
  exact absurd h (by decide)

/-- C5 witness: the amended theorem applied at the `.XYZ` environment. -/
theorem c5_unsupported_ext_witness :
    process_document envXYZ = errD ("Unsupported file format: " ++ pyLower envXYZ.ext) :=
  c5_unsupported_ext_lowercased envXYZ rfl (by decide)

/-- A `.doc` environment in which every attempted strategy raises or yields
blank output. -/
def docEnvAllFail : DocEnv :=
  ⟨true, .error "no antiword", .ok (), .error "markdown boom", .ok "  ", .ok "", .ok "",
    none, none, none⟩

/-- C2 counterexample: when every strategy yields blank or raises, the
terminal error is the fixed message
`Failed to extract text using any available method`, which does not name any
of the attempted methods — contradicting the claim that the terminal error
names every attempted method. -/
theorem c2_terminal_error_counterexample :
    process_doc docEnvAllFail = errD "Failed to extract text using any available method"
    ∧ containsStr "Failed to extract text using any available method" "antiword" = false
    ∧ containsStr "Failed to extract text using any available method" "markdown" = false
    ∧ containsStr "Failed to extract text using any available method" "raw_text" = false :=
  ⟨rfl, by decide, by decide, by decide⟩

/-- C2 amended: in the DOC fallback loop a strategy succeeds iff its output is
non-blank after trimming; on success the handler returns immediately with
`method` set to that strategy's name, independent of the later strategies'
oracles; an exception in one strategy is caught and the next strategy is
tried; blank output is treated exactly like an exception; and when every
strategy yields blank or raises the handler returns a terminal error with a
fixed generic message that does not enumerate the attempted methods. -/
theorem c2_fallback_policy (e : DocEnv) (hex : e.exists_ = true)
    (hopen : e.openDoc = .ok ()) :
    (∀ out, e.antiword = .ok out → isBlank out = false →
      ∀ md rt, process_doc
        { e with
          convert_to_markdown := md, extract_raw_text := rt } = docSuccess out "antiword")
    ∧ (process_doc_antiword e = none → ∀ m v, e.convert_to_markdown = .error m →
        e.extract_raw_text = .ok v → pyTrim v ≠ "" →
        process_doc e = docSuccess (pyTrim v) "raw_text")
    ∧ (process_doc_antiword e = none → ∀ v, e.convert_to_markdown = .ok v →
        pyTrim v = "" → ∀ m, process_doc e
          = process_doc
            { e with
              convert_to_markdown := .error m })
    ∧ (process_doc_antiword e = none → mammothTry e.convert_to_markdown = none →
        mammothTry e.extract_raw_text = none →
        process_doc e = errD "Failed to extract text using any available method") := by
  refine ⟨?_, ?_, ?_, ?_⟩
  · intro out ha hb md rt
    unfold process_doc process_doc_antiword
    simp [hex, ha, hb]
  · intro hn m v hm hv ht
    unfold process_doc
    simp only [hex, hn, hopen]
    simp [mammothTry, hm, hv, ht]
  · intro hn v hv ht m
    unfold process_doc
    unfold process_doc_antiword at hn ⊢
    simp only [hex, hopen, hn]
    simp [mammothTry, hv, ht]
  · intro hn hm hr
    unfold process_doc
    simp [hex, hn, hopen, hm, hr]

/-- C2 witness: the amended policy theorem applied at a concrete environment
in which all strategies fail. -/
theorem c2_fallback_policy_witness :
    process_doc docEnvAllFail = errD "Failed to extract text using any available method" :=
  (c2_fallback_policy docEnvAllFail rfl rfl).2.2.2 rfl rfl rfl

/-- C4 counterexample: for a two-page document whose second page is blank,
the PDF handler returns a `pages` list with a single entry — not one string
per page — and its content payload carries no `metadata` map. -/
theorem c4_pdf_counterexample :
    process_pdf (.ok ["hello", "   "])
      = PyVal.pdict [("type", .pstr "pdf"),
          ("content", .pdict [("pages", .plist [.pstr "hello"])])]
    ∧ (lookupKey (process_pdf (.ok ["hello", "   "])) "content").bind
        (fun c => lookupKey c "metadata") = none :=
  ⟨rfl, rfl⟩

/-- C4 amended: for every readable PDF the handler returns a content payload
holding only the `pages` sequence, which lists — in page order — the texts of
exactly those pages that are non-blank after trimming (blank pages are
omitted and no metadata is included); the `NoTextContent` error is returned
iff every page of the document is blank. -/
theorem c4_pdf_nonblank_pages (texts : List String) :
    (texts.all isBlank = true →
        process_pdf (.ok texts) = errD "No text content found in PDF")
    ∧ (texts.all isBlank = false →
        process_pdf (.ok texts)
          = PyVal.pdict [("type", .pstr "pdf"),
              ("content", .pdict [("pages",
                 .plist ((texts.filter (fun t => !isBlank t)).map .pstr))])]) := by
  constructor
  · intro h
    have hf : texts.filter (fun t => !isBlank t) = [] := by
      rw [List.filter_eq_nil_iff]
      intro a ha
      simp [List.all_eq_true.mp h a ha]
    simp [process_pdf, hf]
  · intro h
    have hf : ¬ (texts.filter (fun t => !isBlank t) = []) := by
      intro hnil
      rw [List.filter_eq_nil_iff] at hnil
      have hall : texts.all isBlank = true := by
        rw [List.all_eq_true]
        intro a ha
        have := hnil a ha
        simpa using this
      rw [hall] at h
      exact Bool.true_eq_false.mp h
    simp [process_pdf, List.isEmpty_iff, hf]

/-- C4 witness: the amended theorem applied to a document with one usable and
one blank page. -/
theorem c4_pdf_witness :
    process_pdf (.ok ["hi", " "])
      = PyVal.pdict [("type", .pstr "pdf"),
          ("content", .pdict [("pages",
             .plist (((["hi", " "] : List String).filter (fun t => !isBlank t)).map .pstr))])] :=
  (c4_pdf_nonblank_pages ["hi", " "]).2 (by decide)

/-- C6: the plain-text handler first attempts a utf-8 decode (its outcome, if
the decode succeeds, is independent of the retry oracles); only on a
`UnicodeDecodeError` does it retry latin-1 and then cp1252, returning the
first retry producing non-blank content; when both retries raise or produce
blank content it returns the decode-failure error. -/
theorem c6_text_encoding_chain (e : TextEnv) :
    (∀ t, e.utf8 = .ok t → isBlank t = false → process_text e = textSuccess t)
    ∧ (∀ t l c l' c', process_text ⟨.ok t, l, c⟩ = process_text ⟨.ok t, l', c'⟩)
    ∧ (∀ m t, e.utf8 = .unicodeError m → e.latin1 = some t → isBlank t = false →
        process_text e = textSuccess t)
    ∧ (∀ m t, e.utf8 = .unicodeError m → retryTry e.latin1 = none →
        e.cp1252 = some t → isBlank t = false → process_text e = textSuccess t)
    ∧ (∀ m, e.utf8 = .unicodeError m → retryTry e.latin1 = none →
        retryTry e.cp1252 = none →
        process_text e = errD "Failed to decode text file with supported encodings") := by
  refine ⟨?_, ?_, ?_, ?_, ?_⟩
  · intro t hu hb
    unfold process_text
    simp [hu, hb]
  · intro t l c l' c'
    rfl
  · intro m t hu hl hb
    unfold process_text
    simp [hu, retryTry, hl, hb]
  · intro m t hu hl hc hb
    unfold process_text
    simp only [hu, hl]
    simp [retryTry, hc, hb]
  · intro m hu hl hc
    unfold process_text
    simp [hu, hl, hc]

/-- C6 witness: a utf-8 decode error with a blank latin-1 decode falls
through to cp1252. -/
theorem c6_text_encoding_witness :
    process_text ⟨.unicodeError "invalid start byte", some " ", some "hola"⟩
      = textSuccess "hola" :=
  (c6_text_encoding_chain ⟨.unicodeError "invalid start byte", some " ", some "hola"⟩).2.2.2.1
    "invalid start byte" "hola" rfl rfl rfl rfl

lemma isBlank_append (s t : String) : isBlank (s ++ t) = (isBlank s && isBlank t) := by
  simp [isBlank, String.data_append, List.all_append]

lemma avg_sample_eq :
    round2 (avgConfidence [(90, "hi"), (-1, ""), (0, "ok"), (80, "x")]) = 5667 / 100 := by
  have h : ocrConfidences [(90, "hi"), (-1, ""), (0, "ok"), (80, "x")] = [90, 0, 80] := by
    decide
  rw [avgConfidence, h]
  norm_num
  rw [round2, round_eq]
  norm_num

/-- C7: the reported OCR confidence is `round2` of the average of the
confidences of exactly those tokens whose trimmed text is non-empty and whose
confidence is not the sentinel `-1` (tokens failing either test are excluded
from numerator and denominator alike); it is `0` when no token qualifies; and
the claim's example `[90, -1, 0, 80]` against `["hi", "", "ok", "x"]`
averages `{90, 0, 80}` to `56.67` after rounding. -/
theorem c7_ocr_confidence (e : ImageEnv) (img : ImgData)
    (toks : List (Int × String)) (txt : String)
    (h1 : e.openImg = .ok img) (h2 : e.ocr = .ok (toks, txt))
    (h3 : e.save = .ok ()) :
    (lookupKey (process_image e) "content").bind
        (fun c => lookupKey c "ocr_confidence")
      = some (.pnum (round2 (avgConfidence toks)))
    ∧ ocrConfidences toks
        = (toks.filter (fun p => !isBlank p.2 && p.1 != -1)).map Prod.fst
    ∧ (ocrConfidences toks = [] → avgConfidence toks = 0)
    ∧ (ocrConfidences toks ≠ [] →
        avgConfidence toks
          = ((ocrConfidences toks).sum : ℚ) / (ocrConfidences toks).length)
    ∧ round2 (avgConfidence [(90, "hi"), (-1, ""), (0, "ok"), (80, "x")]) = 5667 / 100 := by
  refine ⟨?_, rfl, ?_, ?_, avg_sample_eq⟩
  · unfold process_image
    simp only [h1, h2, h3]
    rfl
  · intro h
    unfold avgConfidence
    simp [h]
  · intro h
    unfold avgConfidence
    simp [List.isEmpty_iff, h]

/-- The claim's example image: token confidences `[90, -1, 0, 80]` aligned
with texts `["hi", "", "ok", "x"]`. -/
def imgEnvSample : ImageEnv :=
  ⟨.ok ⟨4, 4, "RGB", some "PNG"⟩,
    .ok ([(90, "hi"), (-1, ""), (0, "ok"), (80, "x")], "hi ok x"), .ok ()⟩

/-- C7 witness: the reported confidence on the claim's example is 56.67. -/
theorem c7_ocr_confidence_witness :
    (lookupKey (process_image imgEnvSample) "content").bind
        (fun c => lookupKey c "ocr_confidence") = some (.pnum (5667 / 100)) := by
  have h := c7_ocr_confidence imgEnvSample ⟨4, 4, "RGB", some "PNG"⟩
    [(90, "hi"), (-1, ""), (0, "ok"), (80, "x")] "hi ok x" rfl rfl rfl
  rw [h.1, h.2.2.2.2]

/-- An RGBA image that opens fine, whose OCR raises, and whose preview
re-encode raises too: the mode conversion leaves `format = None`, so
`img.save` is called with `format='unknown'` and PIL raises `KeyError:
'UNKNOWN'`. -/
def imgEnvConverted : ImageEnv :=
  ⟨.ok ⟨5, 5, "RGBA", some "PNG"⟩, .error "tesseract not found", .error "'UNKNOWN'"⟩

/-- C8 counterexample: an image that opens and validates successfully and
whose OCR engine raises, yet the handler returns an error result with no
content payload — because the `img.save` re-encode after the OCR block
raises (here: a mode-converted image re-encoded as `'unknown'`), the OCR
exception is not the end of the story and the claimed success result is not
returned. -/
theorem c8_ocr_exception_counterexample :
    imgEnvConverted.openImg = .ok ⟨5, 5, "RGBA", some "PNG"⟩
    ∧ imgEnvConverted.ocr = .error "tesseract not found"
    ∧ process_image imgEnvConverted = errD "Image processing failed: 'UNKNOWN'"
    ∧ hasKey (process_image imgEnvConverted) "content" = false :=
  ⟨rfl, rfl, rfl, rfl⟩

/-- C8 amended: for every image file that opens and validates successfully
and whose preview re-encode (`img.save` into the in-memory buffer) succeeds,
an exception raised by the OCR engine is non-fatal — the handler still
returns a success result of format `image` whose `extracted_text` is `None`
and whose `ocr_confidence` is `0`, not an error result.  (When that save
raises — as it does for any mode-converted image, whose `format` attribute
becomes `None` and is re-encoded as `'unknown'` — the handler returns an
error result instead.) -/
theorem c8_ocr_exception_nonfatal (e : ImageEnv) (img : ImgData) (m : String)
    (h1 : e.openImg = .ok img) (h2 : e.ocr = .error m)
    (h3 : e.save = .ok ()) :
    process_image e
      = .pdict [("type", .pstr "image"),
          ("content", .pdict [
            ("format", .pstr ((effectiveFormat img).getD "unknown")),
            ("width", .pint img.width),
            ("height", .pint img.height),
            ("extracted_text", PyVal.pnone),
            ("ocr_confidence", .pnum 0)])] := by
  unfold process_image
  simp only [h1, h2, h3]
  norm_num [round2]

/-- A grayscale image whose OCR engine raises but whose re-encode succeeds. -/
def imgEnvOcrFail : ImageEnv :=
  ⟨.ok ⟨2, 3, "L", some "PNG"⟩, .error "tesseract not found", .ok ()⟩

/-- C8 witness: the amended theorem applied at a concrete OCR failure. -/
theorem c8_ocr_exception_witness :
    process_image imgEnvOcrFail
      = .pdict [("type", .pstr "image"),
          ("content", .pdict [
            ("format", .pstr "PNG"),
            ("width", .pint 2),
            ("height", .pint 3),
            ("extracted_text", PyVal.pnone),
            ("ocr_confidence", .pnum 0)])] :=
  c8_ocr_exception_nonfatal imgEnvOcrFail ⟨2, 3, "L", some "PNG"⟩ "tesseract not found"
    rfl rfl rfl

/-- C10: in `document_processor.extract_text`, when a per-format helper
catches an internal exception it returns the error message as an ordinary
string, and `extract_text` wraps that non-blank string in a success object
`{"text": "Error extracting ..."}` — the handler failure is reported on the
success channel as document text, never as an `{"error": ...}` object. -/
theorem c10_helper_errors_on_success_channel (e : DocProc.DPEnv)
    (hex : e.fileExists = true) (m : String) :
    (pyLower e.ext = ".docx" → e.docxParas = .error m →
      DocProc.extract_text e
        = .pdict [("text", .pstr ("Error extracting text from DOCX: " ++ m))])
    ∧ (pyLower e.ext = ".pdf" → e.pdfPages = .error m →
      DocProc.extract_text e
        = .pdict [("text", .pstr ("Error extracting text from PDF: " ++ m))])
    ∧ (pyLower e.ext = ".doc" → e.docOpen = .ok () → e.docMarkdown = .error m →
      DocProc.extract_text e
        = .pdict [("text", .pstr ("Error extracting text from DOC: " ++ m))]) := by
  refine ⟨?_, ?_, ?_⟩
  · intro hx hm
    have hb : isBlank ("Error extracting text from DOCX: " ++ m) = false := by
      rw [isBlank_append,
        show isBlank "Error extracting text from DOCX: " = false from by decide]
      rfl
    unfold DocProc.extract_text
    simp [hex, hx, DocProc.wrapText, DocProc.extract_text_from_docx, hm, hb]
  · intro hx hm
    have hb : isBlank ("Error extracting text from PDF: " ++ m) = false := by
      rw [isBlank_append,
        show isBlank "Error extracting text from PDF: " = false from by decide]
      rfl
    unfold DocProc.extract_text
    simp [hex, hx, DocProc.wrapText, DocProc.extract_text_from_pdf, hm, hb]
  · intro hx ho hm
    have hb : isBlank ("Error extracting text from DOC: " ++ m) = false := by
      rw [isBlank_append,
        show isBlank "Error extracting text from DOC: " = false from by decide]
      rfl
    unfold DocProc.extract_text
    simp [hex, hx, DocProc.wrapText, DocProc.extract_text_from_doc, ho, hm, hb]

/-- A `.docx` file whose python-docx open raises. -/
def dpEnvDocxFail : DocProc.DPEnv :=
  ⟨true, ".docx", .error "Package not found", .ok ["p"], .ok (), .ok "md", .ok "raw",
    .ok "hello"⟩

/-- C10 witness: a docx helper exception surfaces as `{"text": "Error ..."}`. -/
theorem c10_success_channel_witness :
    DocProc.extract_text dpEnvDocxFail
      = .pdict [("text", .pstr ("Error extracting text from DOCX: " ++ "Package not found"))] :=
  (c10_helper_errors_on_success_channel dpEnvDocxFail rfl "Package not found").1 rfl rfl

end Gradiora
